import Mathlib

/-!
Verification of the bootstrap agent in `app.py`.

The Python program is shallowly embedded: the module-level `Config`
dataclass becomes `makeConfig` over an explicit environment record,
`download_file` becomes a total function over an outcome datatype,
`start_services` becomes a pure function from the download / filesystem
oracles to the performed effects, `run_background_process` becomes its
event trace plus a small shell-timing model, and `main` becomes a
sequential step trace.  Machine integers play no role; Python strings are
ASCII-modelled by `String`.  `pathlib` joining is modelled as string
concatenation with a slash (its cosmetic normalisation of `./` is not
observable by any claim).
-/

namespace App

/-- Process environment as read by the dataclass: `none` means the
variable is unset, `some s` means it is set to `s` (possibly empty). -/
structure Env where
  UPLOAD_URL : Option String
  PROJECT_URL : Option String
  AUTO_ACCESS : Option String
  FILE_PATH : Option String
  SUB_PATH : Option String
  UUID : Option String
  NEZHA_SERVER : Option String
  NEZHA_PORT : Option String
  NEZHA_KEY : Option String
  ARGO_DOMAIN : Option String
  ARGO_AUTH : Option String
  NAME : Option String
  SERVER_PORT : Option String
  PORT : Option String

/-- ASCII lowering of one character, as Python `str.lower()` acts on the
ASCII range (the only range the program's inputs use). -/
def pyLowerChar (c : Char) : Char :=
  if 'A' ≤ c ∧ c ≤ 'Z' then Char.ofNat (c.toNat + 32) else c

/-- Python `s.lower()` on ASCII strings. -/
def pyLower (s : String) : String := ⟨s.data.map pyLowerChar⟩

/-- Python `a or b` restricted to optional strings: `None` and the empty
string are falsy, any other string wins. -/
def pyOr (a b : Option String) : Option String :=
  match a with
  | some s => if s = "" then b else some s
  | none => b

/-- The string that `os.environ.get('SERVER_PORT') or os.environ.get('PORT')`
evaluates to when that expression is truthy; `none` when it is falsy —
both variables unset, or the winning value the empty string — in which
case the trailing `or 3000` of line 40 supplies the default instead of
calling `int` on a string. -/
def portSource (env : Env) : Option String :=
  match pyOr env.SERVER_PORT env.PORT with
  | some s => if s = "" then none else some s
  | none => none

/-- Digit tail of a Python integer literal: after a first digit, digits may
be separated by single underscores (`int("1_0") == 10`), an underscore may
not end the literal or double up. -/
def digitsAux : List Char → Nat → Option Nat
  | [], acc => some acc
  | ['_'], _ => none
  | '_' :: c :: rest, acc =>
      if c.isDigit then digitsAux rest (acc * 10 + (c.toNat - 48)) else none
  | c :: rest, acc =>
      if c.isDigit then digitsAux rest (acc * 10 + (c.toNat - 48)) else none

/-- Unsigned part of `int(str)`: at least one digit, first character a digit. -/
def parseUInt : List Char → Option Nat
  | [] => none
  | c :: rest => if c.isDigit then digitsAux rest (c.toNat - 48) else none

/-- Leading and trailing whitespace removal, as `int(str)` performs. -/
def stripChars (cs : List Char) : List Char :=
  ((cs.dropWhile Char.isWhitespace).reverse.dropWhile Char.isWhitespace).reverse

/-- Python `int(s)` for base 10 (ASCII): optional surrounding whitespace,
optional sign, then a nonempty digit sequence; anything else raises
`ValueError`, modelled as `Except.error`. -/
def pythonInt (s : String) : Except String Int :=
  let cs := stripChars s.data
  let signed : Int × List Char :=
    match cs with
    | '+' :: r => (1, r)
    | '-' :: r => (-1, r)
    | r => (1, r)
  match parseUInt signed.2 with
  | some n => Except.ok (signed.1 * (n : Int))
  | none => Except.error ("invalid literal for int() with base 10: " ++ s)

/-- Evaluation of `int(os.environ.get('SERVER_PORT') or os.environ.get('PORT') or 3000)`
at dataclass definition time: `int` is applied to the first truthy
operand, so only a truthy (non-empty) port string can make it raise;
when both variables are falsy the literal `3000` is already an int. -/
def resolvePort (env : Env) : Except String Int :=
  match portSource env with
  | some s => pythonInt s
  | none => Except.ok 3000

/-- The validated, immutable settings object of `app.py`, with the derived
paths of `__post_init__`. Field order follows the dataclass. -/
structure Config where
  UPLOAD_URL : String
  PROJECT_URL : String
  AUTO_ACCESS : Bool
  FILE_PATH : String
  SUB_PATH : String
  UUID : String
  NEZHA_SERVER : String
  NEZHA_PORT : String
  NEZHA_KEY : String
  ARGO_DOMAIN : String
  ARGO_AUTH : String
  NAME : String
  PORT : Int
  SUB_FILE : String
  LIST_FILE : String
  CONFIG_FILE : String
  BOOT_LOG_FILE : String
  NPM_BIN : String
  PHP_BIN : String
  WEB_BIN : String
  BOT_BIN : String
deriving DecidableEq, Inhabited

/-- The `pathlib` join `base / child`, as string concatenation. -/
def pathJoin (base child : String) : String := base ++ "/" ++ child

/-- Construction of `Config()` from the environment, including
`__post_init__`.  The only failing step is the `int(...)` of the port. -/
def makeConfig (env : Env) : Except String Config :=
  match resolvePort env with
  | Except.error e => Except.error e
  | Except.ok port =>
    let fp := env.FILE_PATH.getD "./.cache"
    Except.ok ⟨env.UPLOAD_URL.getD "", env.PROJECT_URL.getD "",
      pyLower (env.AUTO_ACCESS.getD "false") == "true",
      fp, env.SUB_PATH.getD "sub",
      env.UUID.getD "ff24ebc4-8b2f-4eae-a40b-0fe47473541f",
      env.NEZHA_SERVER.getD "", env.NEZHA_PORT.getD "", env.NEZHA_KEY.getD "",
      env.ARGO_DOMAIN.getD "", env.ARGO_AUTH.getD "",
      env.NAME.getD "Vls", port,
      pathJoin fp "sub.txt", pathJoin fp "list.txt", pathJoin fp "config.json",
      pathJoin fp "boot.log", pathJoin fp "npm", pathJoin fp "php",
      pathJoin fp "web", pathJoin fp "bot"⟩

/-- One effect performed on the destination file. -/
inductive FileEffect where
  | writeChunk (bytes : List Nat)
  | chmod (mode : Nat)
deriving DecidableEq

/-- True exactly on write effects. -/
def isWriteEffect : FileEffect → Bool
  | FileEffect.writeChunk _ => true
  | FileEffect.chmod _ => false

/-- What the world does to one `download_file` call: the request can fail
to connect, time out, or yield a response with a status, the body chunks
that arrive, whether reading is interrupted by a mid-stream error after
those chunks, and at which chunk (if any) writing to disk raises. -/
inductive FetchOutcome where
  | netError
  | timeout
  | response (status : Nat) (chunks : List (List Nat)) (interrupted : Bool)
      (writeFailAt : Option Nat)
deriving DecidableEq

/-- Result of one `download_file` call: the returned boolean and the file
effects performed.  Every Python exception path is caught by the function
(`except Exception`) and turns into `success := false`. -/
structure DownloadResult where
  success : Bool
  effects : List FileEffect
deriving DecidableEq

/-- The write loop over `response.aiter_bytes()`: chunks are written in
order; a write raising at chunk `i` leaves the earlier chunks written and
the call failed; a read interruption after the arrived chunks leaves them
all written and the call failed. -/
def streamPhase (chunks : List (List Nat)) (interrupted : Bool) :
    Option Nat → DownloadResult
  | some i =>
    if i < chunks.length then ⟨false, (chunks.take i).map FileEffect.writeChunk⟩
    else ⟨!interrupted, chunks.map FileEffect.writeChunk⟩
  | none => ⟨!interrupted, chunks.map FileEffect.writeChunk⟩

/-- The `download_file` coroutine of `app.py`: streams a GET response to
the target, `raise_for_status` before opening the file, returns `True`
only after the loop over `aiter_bytes` finished, `False` on any caught
exception.  It performs no `chmod`. -/
def download_file : FetchOutcome → DownloadResult
  | FetchOutcome.netError => ⟨false, []⟩
  | FetchOutcome.timeout => ⟨false, []⟩
  | FetchOutcome.response status chunks interrupted writeFailAt =>
    if 200 ≤ status ∧ status < 300 then streamPhase chunks interrupted writeFailAt
    else ⟨false, []⟩

/-- Python substring membership on character lists (`pat in s`). -/
def leadsChars : List Char → List Char → Bool
  | [], _ => true
  | _ :: _, [] => false
  | p :: ps, c :: cs => p == c && leadsChars ps cs

/-- Recursive search for `pat` at any position of the haystack. -/
def containsChars (pat : List Char) : List Char → Bool
  | [] => leadsChars pat []
  | c :: rest => leadsChars pat (c :: rest) || containsChars pat rest

/-- Python `pat in s` for strings. -/
def occursIn (pat s : String) : Bool := containsChars pat.data s.data

/-- Line 113: `'arm' if 'aarch64' in platform.machine().lower() else 'amd'`. -/
def architecture (machine : String) : String :=
  if occursIn "aarch64" (pyLower machine) then "arm" else "amd"

/-- The f-string url of line 117 and friends. -/
def artifactUrl (archStr key : String) : String :=
  "https://" ++ archStr ++ "64.ssss.nyc.mn/" ++ key

/-- The `files_to_download` dict of `start_services`, in insertion order:
web and 2go always; additionally the npm-path agent when server, key and
port are all truthy, the php-path v1 agent when only server and key are. -/
def filesToDownload (cfg : Config) (machine : String) : List (String × String) :=
  [(cfg.WEB_BIN, artifactUrl (architecture machine) "web"),
   (cfg.BOT_BIN, artifactUrl (architecture machine) "2go")] ++
    (if cfg.NEZHA_SERVER ≠ "" ∧ cfg.NEZHA_KEY ≠ "" then
      (if cfg.NEZHA_PORT ≠ "" then [(cfg.NPM_BIN, artifactUrl (architecture machine) "agent")]
       else [(cfg.PHP_BIN, artifactUrl (architecture machine) "v1")])
     else [])

/-- The list collected by `asyncio.gather` over the download tasks, one
boolean per artifact; `dl path url` is the outcome of that artifact's
`download_file` call. -/
def downloadResults (cfg : Config) (machine : String)
    (dl : String → String → Bool) : List Bool :=
  (filesToDownload cfg machine).map (fun f => dl f.1 f.2)

/-- A background launch issued by `start_services`: its log name, the
binary path interpolated first into the f-string, and the full command. -/
structure Launch where
  name : String
  bin : String
  cmd : String
deriving DecidableEq

/-- The task list of lines 147-156: web always, php only when
`config.PHP_BIN.exists()`, bot always, in that order. -/
def launchPlan (cfg : Config) (phpOnDisk : Bool) : List Launch :=
  ⟨"web", cfg.WEB_BIN, cfg.WEB_BIN ++ " -c " ++ cfg.CONFIG_FILE⟩ ::
    ((if phpOnDisk then
        [⟨"php", cfg.PHP_BIN, cfg.PHP_BIN ++ " -c \x27config.yaml\x27"⟩]
      else []) ++
     [⟨"bot", cfg.BOT_BIN,
        cfg.BOT_BIN ++ " tunnel --edge-ip-version auto --no-autoupdate --url http://localhost:"
          ++ toString cfg.PORT⟩])

/-- Everything one `start_services` run does, as data: the artifact set it
requested, the per-artifact results, whether it aborted after the gather,
the `chmod` calls (path, mode) and the background launches it issued. -/
structure ServiceRun where
  downloads : List (String × String)
  results : List Bool
  aborted : Bool
  chmods : List (String × Nat)
  launches : List Launch
deriving DecidableEq

/-- The `start_services` coroutine: gather all downloads, abort (no chmod,
no launch) unless all succeeded; otherwise chmod `0o775` every requested
path that exists and issue the launch plan, php included exactly when its
binary exists on disk (`fsEx`). -/
def start_services (cfg : Config) (machine : String)
    (dl : String → String → Bool) (fsEx : String → Bool) : ServiceRun :=
  if (downloadResults cfg machine dl).all (fun b => b) then
    ⟨filesToDownload cfg machine, downloadResults cfg machine dl, false,
      (((filesToDownload cfg machine).map Prod.fst).filter fsEx).map (fun p => (p, 509)),
      launchPlan cfg (fsEx cfg.PHP_BIN)⟩
  else
    ⟨filesToDownload cfg machine, downloadResults cfg machine dl, true, [], []⟩

/-- One step of the `main` coroutine, in program order. -/
inductive BootStep where
  | mkdir (path : String)
  | startHealth (host : String) (port : Int)
  | download (path : String) (url : String)
  | chmodStep (path : String) (mode : Nat)
  | launch (name : String) (cmd : String)
  | idleSleep
deriving DecidableEq

/-- The `main` coroutine as a step trace: the module-level `Config()`
construction runs first and a `ValueError` there stops everything, else
`setup_environment` creates the directory, the health-server thread is
started, `start_services` runs, and `main` enters `while True: sleep`
whether or not the downloads succeeded. -/
def mainTrace (env : Env) (machine : String)
    (dl : String → String → Bool) (fsEx : String → Bool) :
    Except String (List BootStep) :=
  match makeConfig env with
  | Except.error e => Except.error e
  | Except.ok cfg =>
    let r := start_services cfg machine dl fsEx
    Except.ok (BootStep.mkdir cfg.FILE_PATH :: BootStep.startHealth "0.0.0.0" cfg.PORT ::
      (r.downloads.map (fun f => BootStep.download f.1 f.2) ++
       r.chmods.map (fun c => BootStep.chmodStep c.1 c.2) ++
       r.launches.map (fun l => BootStep.launch l.name l.cmd) ++
       [BootStep.idleSleep]))

/-- Events of one `run_background_process` call against the subprocess
machinery: it may spawn a shell for a line, wait for that shell, wait for
the detached command itself, or collect the command's exit status. -/
inductive SubprocessEvent where
  | spawnShell (line : String)
  | waitShell
  | waitChild (cmd : String)
  | collectExit (cmd : String)
deriving DecidableEq

/-- The f-string of line 106. -/
def nohupLine (command : String) : String :=
  "nohup " ++ command ++ " >/dev/null 2>&1 &"

/-- The `run_background_process` coroutine as its event trace: it spawns
the nohup line and awaits `process.wait()` on the shell; it never awaits
the detached command and never collects its exit status. -/
def run_background_process (command : String) : List SubprocessEvent :=
  [SubprocessEvent.spawnShell (nohupLine command), SubprocessEvent.waitShell]

/-- A shell line is backgrounded when it ends in an ampersand. -/
def endsInAmp (line : String) : Bool := line.data.reverse.head? == some '&'

/-- Shell timing model: executing a backgrounded line takes no time in the
shell (the child is forked and the shell exits); a foreground line takes
the command's own duration.  `process.wait()` waits exactly this long. -/
def shellWaitTicks (duration : String → Nat) (line : String) : Nat :=
  if endsInAmp line then 0 else duration line

/-- Environment with only the two port variables possibly set. -/
def envPorts (sp p : Option String) : Env :=
  ⟨none, none, none, none, none, none, none, none, none, none, none, none, sp, p⟩

/-- The fully unset environment. -/
def env0 : Env := envPorts none none

/-- Settings resolved from the fully unset environment. -/
def cfgOf (e : Env) : Config := ((makeConfig e).toOption).getD default

/-- Default settings object. -/
def cfg0 : Config := cfgOf env0

/-- Environment enabling the monitoring agent without a port. -/
def envNezha : Env :=
  ⟨none, none, none, none, none, none, some "nz.example.com", none, some "secretkey",
    none, none, none, none, none⟩

/-- Environment enabling the monitoring agent with a port. -/
def envNezhaPort : Env :=
  ⟨none, none, none, none, none, none, some "nz.example.com", some "5555", some "secretkey",
    none, none, none, none, none⟩

/-- Environment whose only port variable is the non-numeric `PORT`. -/
def envBadPort : Env := envPorts none (some "abc")

/-- Environment with a numeric `SERVER_PORT` masking a non-numeric `PORT`. -/
def envMasked : Env := envPorts (some "8080") (some "abc")

/-- Download oracle where every artifact fetch succeeds. -/
def dlAll : String → String → Bool := fun _ _ => true

/-- Download oracle failing exactly the amd64 `2go` artifact. -/
def dlFail2go : String → String → Bool :=
  fun _ url => url != "https://amd64.ssss.nyc.mn/2go"

/-- Filesystem oracle on which every path exists. -/
def exAll : String → Bool := fun _ => true

lemma strDataAppend (a b : String) : (a ++ b).data = a.data ++ b.data := by
  cases a; cases b; rfl

lemma strAppendLeftCancel {s t u : String} (h : s ++ t = s ++ u) : t = u := by
  have hd : (s ++ t).data = (s ++ u).data := congrArg String.data h
  rw [strDataAppend, strDataAppend] at hd
  have hd2 : t.data = u.data := List.append_cancel_left hd
  cases t; cases u; exact congrArg String.mk hd2

lemma pathJoinInj {fp a b : String} (h : pathJoin fp a = pathJoin fp b) : a = b := by
  have h2 : (fp ++ "/") ++ a = (fp ++ "/") ++ b := by
    simpa [pathJoin, String.append_assoc] using h
  exact strAppendLeftCancel h2

lemma start_services_gatherFail {cfg : Config} {machine : String}
    {dl : String → String → Bool} {fsEx : String → Bool}
    (h : (downloadResults cfg machine dl).all (fun b => b) = false) :
    start_services cfg machine dl fsEx =
      ⟨filesToDownload cfg machine, downloadResults cfg machine dl, true, [], []⟩ := by
  simp [start_services, h]

lemma start_services_gatherOk {cfg : Config} {machine : String}
    {dl : String → String → Bool} {fsEx : String → Bool}
    (h : (downloadResults cfg machine dl).all (fun b => b) = true) :
    start_services cfg machine dl fsEx =
      ⟨filesToDownload cfg machine, downloadResults cfg machine dl, false,
        (((filesToDownload cfg machine).map Prod.fst).filter fsEx).map (fun p => (p, 509)),
        launchPlan cfg (fsEx cfg.PHP_BIN)⟩ := by
  simp [start_services, h]

lemma downloadResults_all_false {cfg : Config} {machine : String}
    {dl : String → String → Bool} {f : String × String}
    (hf : f ∈ filesToDownload cfg machine) (hdl : dl f.1 f.2 = false) :
    (downloadResults cfg machine dl).all (fun b => b) = false := by
  cases hall : (downloadResults cfg machine dl).all (fun b => b) with
  | false => rfl
  | true =>
    exfalso
    have h2 : dl f.1 f.2 = true :=
      List.all_eq_true.mp hall _ (List.mem_map_of_mem _ hf)
    rw [hdl] at h2
    exact Bool.false_ne_true h2

lemma mem_launchPlan {cfg : Config} {b : Bool} {l : Launch} (h : l ∈ launchPlan cfg b) :
    l = ⟨"web", cfg.WEB_BIN, cfg.WEB_BIN ++ " -c " ++ cfg.CONFIG_FILE⟩ ∨
    (b = true ∧ l = ⟨"php", cfg.PHP_BIN, cfg.PHP_BIN ++ " -c \x27config.yaml\x27"⟩) ∨
    l = ⟨"bot", cfg.BOT_BIN,
      cfg.BOT_BIN ++ " tunnel --edge-ip-version auto --no-autoupdate --url http://localhost:"
        ++ toString cfg.PORT⟩ := by
  cases b <;> simp [launchPlan] at h <;> tauto

/-- C1.  If any one of the concurrently gathered artifact downloads
reports failure, `start_services` aborts: the aggregate is a failure, the
launch phase issues no background process and the chmod loop marks no
file executable, regardless of which other downloads succeeded and which
files are present on disk (`fsEx` is arbitrary). -/
theorem c1_download_failure_aborts (cfg : Config) (machine : String)
    (dl : String → String → Bool) (fsEx : String → Bool)
    (h : ∃ f ∈ filesToDownload cfg machine, dl f.1 f.2 = false) :
    (start_services cfg machine dl fsEx).aborted = true ∧
    (start_services cfg machine dl fsEx).launches = [] ∧
    (start_services cfg machine dl fsEx).chmods = [] := by
  obtain ⟨f, hf, hdl⟩ := h
  rw [start_services_gatherFail (downloadResults_all_false hf hdl)]
  exact ⟨rfl, rfl, rfl⟩

/-- Witness for C1: web succeeds, 2go fails, every file is on disk, yet
nothing is chmodded and nothing is launched. -/
theorem c1_witness :
    (∃ f ∈ filesToDownload cfg0 "x86_64", dlFail2go f.1 f.2 = false) ∧
    (start_services cfg0 "x86_64" dlFail2go exAll).aborted = true ∧
    (start_services cfg0 "x86_64" dlFail2go exAll).launches = [] ∧
    (start_services cfg0 "x86_64" dlFail2go exAll).chmods = [] :=
  ⟨⟨(cfg0.BOT_BIN, artifactUrl "amd" "2go"), by decide, by decide⟩,
   c1_download_failure_aborts cfg0 "x86_64" dlFail2go exAll
     ⟨(cfg0.BOT_BIN, artifactUrl "amd" "2go"), by decide, by decide⟩⟩

/-- C2.  With monitoring server and key non-empty and the port empty,
exactly one extra artifact is requested, the v1 agent destined for the
php path; with the port also non-empty the agent binary destined for the
npm path is requested instead; with server or key empty the set is
exactly the web and 2go binaries. -/
theorem c2_agent_selection (cfg : Config) (machine : String) :
    (cfg.NEZHA_SERVER ≠ "" → cfg.NEZHA_KEY ≠ "" → cfg.NEZHA_PORT = "" →
      filesToDownload cfg machine =
        [(cfg.WEB_BIN, artifactUrl (architecture machine) "web"),
         (cfg.BOT_BIN, artifactUrl (architecture machine) "2go"),
         (cfg.PHP_BIN, artifactUrl (architecture machine) "v1")]) ∧
    (cfg.NEZHA_SERVER ≠ "" → cfg.NEZHA_KEY ≠ "" → cfg.NEZHA_PORT ≠ "" →
      filesToDownload cfg machine =
        [(cfg.WEB_BIN, artifactUrl (architecture machine) "web"),
         (cfg.BOT_BIN, artifactUrl (architecture machine) "2go"),
         (cfg.NPM_BIN, artifactUrl (architecture machine) "agent")]) ∧
    ((cfg.NEZHA_SERVER = "" ∨ cfg.NEZHA_KEY = "") →
      filesToDownload cfg machine =
        [(cfg.WEB_BIN, artifactUrl (architecture machine) "web"),
         (cfg.BOT_BIN, artifactUrl (architecture machine) "2go")]) := by
  refine ⟨fun hs hk hp => ?_, fun hs hk hp => ?_, fun h => ?_⟩
  · simp [filesToDownload, hs, hk, hp]
  · simp [filesToDownload, hs, hk, hp]
  · rcases h with h | h <;> simp [filesToDownload, h]

/-- Witness for C2: the three monitoring configurations on amd64. -/
theorem c2_witness :
    filesToDownload (cfgOf envNezha) "x86_64" =
      [("./.cache/web", "https://amd64.ssss.nyc.mn/web"),
       ("./.cache/bot", "https://amd64.ssss.nyc.mn/2go"),
       ("./.cache/php", "https://amd64.ssss.nyc.mn/v1")] ∧
    filesToDownload (cfgOf envNezhaPort) "x86_64" =
      [("./.cache/web", "https://amd64.ssss.nyc.mn/web"),
       ("./.cache/bot", "https://amd64.ssss.nyc.mn/2go"),
       ("./.cache/npm", "https://amd64.ssss.nyc.mn/agent")] ∧
    filesToDownload cfg0 "x86_64" =
      [("./.cache/web", "https://amd64.ssss.nyc.mn/web"),
       ("./.cache/bot", "https://amd64.ssss.nyc.mn/2go")] :=
  ⟨((c2_agent_selection (cfgOf envNezha) "x86_64").1
      (by decide) (by decide) (by decide)).trans (by decide),
   ((c2_agent_selection (cfgOf envNezhaPort) "x86_64").2.1
      (by decide) (by decide) (by decide)).trans (by decide),
   ((c2_agent_selection cfg0 "x86_64").2.2 (Or.inl (by decide))).trans (by decide)⟩

/-- C5.  With every environment input unset the settings resolve to the
documented defaults, and the listen port is taken from the first
non-empty of SERVER_PORT and PORT, defaulting to 3000. -/
theorem c5_defaults :
    makeConfig env0 = Except.ok
      ⟨"", "", false, "./.cache", "sub", "ff24ebc4-8b2f-4eae-a40b-0fe47473541f",
       "", "", "", "", "", "Vls", 3000,
       "./.cache/sub.txt", "./.cache/list.txt", "./.cache/config.json", "./.cache/boot.log",
       "./.cache/npm", "./.cache/php", "./.cache/web", "./.cache/bot"⟩ ∧
    (makeConfig (envPorts (some "1234") (some "9999"))).map Config.PORT = Except.ok 1234 ∧
    (makeConfig (envPorts none (some "9999"))).map Config.PORT = Except.ok 9999 ∧
    (makeConfig (envPorts (some "") (some "9999"))).map Config.PORT = Except.ok 9999 :=
  ⟨rfl, rfl, rfl, rfl⟩

/-- C6 counterexample.  The claim asserts a failure whenever the `PORT`
variable holds a non-numeric string, but a numeric `SERVER_PORT` masks
it: settings construction succeeds and resolves port 8080. -/
theorem c6_counterexample :
    envMasked.PORT = some "abc" ∧ (pythonInt "abc").isOk = false ∧
    (makeConfig envMasked).isOk = true ∧
    (makeConfig envMasked).map Config.PORT = Except.ok 8080 :=
  ⟨rfl, rfl, rfl, rfl⟩

/-- C6 as amended.  When the first non-empty of SERVER_PORT and PORT is a
string that `int` rejects, settings construction fails, and the whole
program stops before performing any step — no directory creation, no
download, no launch, no listener. -/
theorem c6_amended (env : Env) (machine : String) (dl : String → String → Bool)
    (fsEx : String → Bool) (s : String)
    (h1 : portSource env = some s) (h2 : (pythonInt s).isOk = false) :
    (makeConfig env).isOk = false ∧ (mainTrace env machine dl fsEx).isOk = false := by
  cases hpi : pythonInt s with
  | ok v => rw [hpi] at h2; simp [Except.isOk, Except.toBool] at h2
  | error e =>
    have hrp : resolvePort env = Except.error e := by
      unfold resolvePort; rw [h1]; exact hpi
    have hmc : makeConfig env = Except.error e := by
      unfold makeConfig; rw [hrp]
    have hmt : mainTrace env machine dl fsEx = Except.error e := by
      unfold mainTrace; rw [hmc]
    rw [hmc, hmt]; exact ⟨rfl, rfl⟩

/-- Witness for the amended C6: `PORT=abc` with SERVER_PORT unset. -/
theorem c6_witness :
    (makeConfig envBadPort).isOk = false ∧
    (mainTrace envBadPort "x86_64" dlAll exAll).isOk = false :=
  c6_amended envBadPort "x86_64" dlAll exAll "abc" rfl rfl

/-- C3 counterexample.  The machine string `AARCH64` differs from
`aarch64`, yet every artifact URL is built with the `arm64.` host, because
the code tests `'aarch64' in machine.lower()` as a substring of the
lowered string rather than equality. -/
theorem c3_counterexample :
    ("AARCH64" : String) ≠ "aarch64" ∧
    architecture "AARCH64" = "arm" ∧
    (filesToDownload cfg0 "AARCH64").map Prod.snd =
      ["https://arm64.ssss.nyc.mn/web", "https://arm64.ssss.nyc.mn/2go"] := by
  refine ⟨by decide, rfl, rfl⟩

lemma filesToDownload_urls {cfg : Config} {machine : String} {f : String × String}
    (hf : f ∈ filesToDownload cfg machine) :
    f.2 = artifactUrl (architecture machine) "web" ∨
    f.2 = artifactUrl (architecture machine) "2go" ∨
    f.2 = artifactUrl (architecture machine) "agent" ∨
    f.2 = artifactUrl (architecture machine) "v1" := by
  unfold filesToDownload at hf
  rcases List.mem_append.mp hf with hmem | hmem
  · simp only [List.mem_cons, List.not_mem_nil, or_false] at hmem
    rcases hmem with h1 | h1
    · exact Or.inl (congrArg Prod.snd h1)
    · exact Or.inr (Or.inl (congrArg Prod.snd h1))
  · split at hmem
    · split at hmem
      · simp only [List.mem_singleton] at hmem
        exact Or.inr (Or.inr (Or.inl (congrArg Prod.snd hmem)))
      · simp only [List.mem_singleton] at hmem
        exact Or.inr (Or.inr (Or.inr (congrArg Prod.snd hmem)))
    · exact absurd hmem (List.not_mem_nil f)

lemma artifactUrl_arm (key : String) :
    artifactUrl "arm" key = "https://arm64." ++ ("ssss.nyc.mn/" ++ key) := by
  have h1 : ("https://" ++ "arm" ++ "64.ssss.nyc.mn/" : String)
      = "https://arm64." ++ "ssss.nyc.mn/" := by decide
  calc artifactUrl "arm" key = ("https://" ++ "arm" ++ "64.ssss.nyc.mn/") ++ key := rfl
    _ = ("https://arm64." ++ "ssss.nyc.mn/") ++ key := by rw [h1]
    _ = "https://arm64." ++ ("ssss.nyc.mn/" ++ key) := String.append_assoc _ _ _

lemma artifactUrl_amd (key : String) :
    artifactUrl "amd" key = "https://amd64." ++ ("ssss.nyc.mn/" ++ key) := by
  have h1 : ("https://" ++ "amd" ++ "64.ssss.nyc.mn/" : String)
      = "https://amd64." ++ "ssss.nyc.mn/" := by decide
  calc artifactUrl "amd" key = ("https://" ++ "amd" ++ "64.ssss.nyc.mn/") ++ key := rfl
    _ = ("https://amd64." ++ "ssss.nyc.mn/") ++ key := by rw [h1]
    _ = "https://amd64." ++ ("ssss.nyc.mn/" ++ key) := String.append_assoc _ _ _

/-- C3 as amended.  When the lowered machine string contains `aarch64` as
a substring every artifact URL uses the `arm64.` host; otherwise every
artifact URL uses the `amd64.` host. -/
theorem c3_amended (machine : String) (cfg : Config) :
    (occursIn "aarch64" (pyLower machine) = true →
      architecture machine = "arm" ∧
      ∀ f ∈ filesToDownload cfg machine, ∃ rest, f.2 = "https://arm64." ++ rest) ∧
    (occursIn "aarch64" (pyLower machine) = false →
      architecture machine = "amd" ∧
      ∀ f ∈ filesToDownload cfg machine, ∃ rest, f.2 = "https://amd64." ++ rest) := by
  constructor <;> intro h <;> refine ⟨by simp [architecture, h], fun f hf => ?_⟩ <;>
    have harch : architecture machine = (if occursIn "aarch64" (pyLower machine) then "arm" else "amd") := rfl
  · rw [h] at harch
    rcases filesToDownload_urls hf with h1 | h1 | h1 | h1 <;>
      rw [harch] at h1 <;> simp only [if_true] at h1
    · exact ⟨"ssss.nyc.mn/" ++ "web", by rw [h1, artifactUrl_arm]⟩
    · exact ⟨"ssss.nyc.mn/" ++ "2go", by rw [h1, artifactUrl_arm]⟩
    · exact ⟨"ssss.nyc.mn/" ++ "agent", by rw [h1, artifactUrl_arm]⟩
    · exact ⟨"ssss.nyc.mn/" ++ "v1", by rw [h1, artifactUrl_arm]⟩
  · rw [h] at harch
    rcases filesToDownload_urls hf with h1 | h1 | h1 | h1 <;>
      rw [harch] at h1 <;> rw [if_neg (by decide)] at h1
    · exact ⟨"ssss.nyc.mn/" ++ "web", by rw [h1, artifactUrl_amd]⟩
    · exact ⟨"ssss.nyc.mn/" ++ "2go", by rw [h1, artifactUrl_amd]⟩
    · exact ⟨"ssss.nyc.mn/" ++ "agent", by rw [h1, artifactUrl_amd]⟩
    · exact ⟨"ssss.nyc.mn/" ++ "v1", by rw [h1, artifactUrl_amd]⟩

/-- Witness for the amended C3: an aarch64 and an x86_64 machine. -/
theorem c3_witness :
    (architecture "aarch64" = "arm" ∧
      ∀ f ∈ filesToDownload cfg0 "aarch64", ∃ rest, f.2 = "https://arm64." ++ rest) ∧
    (architecture "x86_64" = "amd" ∧
      ∀ f ∈ filesToDownload cfg0 "x86_64", ∃ rest, f.2 = "https://amd64." ++ rest) :=
  ⟨(c3_amended "aarch64" cfg0).1 (by decide),
   (c3_amended "x86_64" cfg0).2 (by decide)⟩

lemma map_writeChunk_all (l : List (List Nat)) :
    (l.map FileEffect.writeChunk).all isWriteEffect = true := by
  induction l with
  | nil => rfl
  | cons a t ih => exact ih

lemma streamPhase_effects_write (chunks : List (List Nat)) (interrupted : Bool)
    (w : Option Nat) :
    (streamPhase chunks interrupted w).effects.all isWriteEffect = true := by
  cases w with
  | none => exact map_writeChunk_all chunks
  | some i =>
    simp only [streamPhase]
    by_cases hi : i < chunks.length
    · rw [if_pos hi]; exact map_writeChunk_all _
    · rw [if_neg hi]; exact map_writeChunk_all _

lemma streamPhase_interrupted_fails (chunks : List (List Nat)) (w : Option Nat) :
    (streamPhase chunks true w).success = false := by
  cases w with
  | none => rfl
  | some i =>
    simp only [streamPhase]
    by_cases hi : i < chunks.length
    · rw [if_pos hi]
    · rw [if_neg hi]; rfl

lemma streamPhase_writeFail (chunks : List (List Nat)) (interrupted : Bool) (i : Nat)
    (hlen : i < chunks.length) :
    (streamPhase chunks interrupted (some i)).success = false := by
  simp only [streamPhase]; rw [if_pos hlen]

lemma streamPhase_success {chunks : List (List Nat)} {interrupted : Bool} {w : Option Nat}
    (h : (streamPhase chunks interrupted w).success = true) :
    interrupted = false ∧
      (streamPhase chunks interrupted w).effects = chunks.map FileEffect.writeChunk := by
  cases w with
  | none =>
    simp only [streamPhase] at h
    cases interrupted with
    | false => exact ⟨rfl, rfl⟩
    | true => exact absurd h (by simp)
  | some i =>
    simp only [streamPhase] at h ⊢
    by_cases hi : i < chunks.length
    · rw [if_pos hi] at h; exact absurd h (by simp)
    · rw [if_neg hi] at h ⊢
      cases interrupted with
      | false => exact ⟨rfl, rfl⟩
      | true => exact absurd h (by simp)

/-- C4 counterexample.  A fully successful `download_file` stream performs
only writes — no chmod — and in a batch where the web download succeeded
but 2go failed (files present on disk), no file at all is marked
executable, contradicting the per-download marking the claim asserts. -/
theorem c4_counterexample :
    (download_file (FetchOutcome.response 200 [[1]] false none)).success = true ∧
    (download_file (FetchOutcome.response 200 [[1]] false none)).effects
      = [FileEffect.writeChunk [1]] ∧
    downloadResults cfg0 "x86_64" dlFail2go = [true, false] ∧
    (start_services cfg0 "x86_64" dlFail2go exAll).chmods = [] :=
  ⟨rfl, rfl, rfl, rfl⟩

/-- C4 as amended.  The fetcher itself never changes permissions; execute
permission (mode `0o775`) is granted by `start_services`, to every
requested path present on disk, and only after every download in the
batch succeeded — after any failure no file is marked. -/
theorem c4_amended (o : FetchOutcome) (cfg : Config) (machine : String)
    (dl : String → String → Bool) (fsEx : String → Bool) :
    (download_file o).effects.all isWriteEffect = true ∧
    ((downloadResults cfg machine dl).all (fun b => b) = true →
      (start_services cfg machine dl fsEx).chmods =
        (((filesToDownload cfg machine).map Prod.fst).filter fsEx).map (fun p => (p, 509))) ∧
    ((downloadResults cfg machine dl).all (fun b => b) = false →
      (start_services cfg machine dl fsEx).chmods = []) := by
  refine ⟨?_, fun h => ?_, fun h => ?_⟩
  · cases o with
    | netError => rfl
    | timeout => rfl
    | response status chunks interrupted writeFailAt =>
      simp only [download_file]
      split
      · exact streamPhase_effects_write chunks interrupted writeFailAt
      · rfl
  · rw [start_services_gatherOk h]
  · rw [start_services_gatherFail h]

/-- Witness for the amended C4: a successful batch marks web and bot with
mode 775, a failed batch marks nothing, and the fetcher only writes. -/
theorem c4_witness :
    (download_file (FetchOutcome.response 200 [[9]] false none)).effects.all isWriteEffect
      = true ∧
    (start_services cfg0 "x86_64" dlAll exAll).chmods =
      [("./.cache/web", 509), ("./.cache/bot", 509)] ∧
    (start_services cfg0 "x86_64" dlFail2go exAll).chmods = [] :=
  ⟨(c4_amended (FetchOutcome.response 200 [[9]] false none) cfg0 "x86_64" dlAll exAll).1,
   ((c4_amended (FetchOutcome.response 200 [[9]] false none) cfg0 "x86_64" dlAll exAll).2.1
      (by decide)).trans (by decide),
   (c4_amended (FetchOutcome.response 200 [[9]] false none) cfg0 "x86_64" dlFail2go exAll).2.2
      (by decide)⟩

/-- C7.  Every `download_file` call returns a result rather than raising:
a connection failure, a timeout, a non-2xx status, a mid-stream read
interruption and a write failure each yield `success = false`; and
`success = true` holds only when the status was 2xx, reading was not
interrupted, no write failed, and every arrived chunk of the body was
streamed to the destination file. -/
theorem c7_download_failure_uniform (status : Nat) (chunks : List (List Nat))
    (interrupted : Bool) (writeFailAt : Option Nat) :
    (download_file FetchOutcome.netError).success = false ∧
    (download_file FetchOutcome.timeout).success = false ∧
    (¬ (200 ≤ status ∧ status < 300) →
      download_file (FetchOutcome.response status chunks interrupted writeFailAt)
        = ⟨false, []⟩) ∧
    (interrupted = true →
      (download_file (FetchOutcome.response status chunks interrupted writeFailAt)).success
        = false) ∧
    (∀ i, writeFailAt = some i → i < chunks.length →
      (download_file (FetchOutcome.response status chunks interrupted writeFailAt)).success
        = false) ∧
    ((download_file (FetchOutcome.response status chunks interrupted writeFailAt)).success
        = true →
      (200 ≤ status ∧ status < 300) ∧ interrupted = false ∧
      (download_file (FetchOutcome.response status chunks interrupted writeFailAt)).effects
        = chunks.map FileEffect.writeChunk) := by
  refine ⟨rfl, rfl, fun h => ?_, fun h => ?_, fun i hi hlen => ?_, fun h => ?_⟩
  · simp only [download_file]; rw [if_neg h]
  · subst h
    simp only [download_file]
    split
    · exact streamPhase_interrupted_fails chunks writeFailAt
    · rfl
  · subst hi
    simp only [download_file]
    split
    · exact streamPhase_writeFail chunks interrupted i hlen
    · rfl
  · simp only [download_file] at h ⊢
    split at h
    · rename_i h2xx
      obtain ⟨hint, heff⟩ := streamPhase_success h
      refine ⟨h2xx, hint, ?_⟩
      rw [if_pos h2xx]; exact heff
    · exact absurd h (by simp)

/-- Witness for C7: a 500 refused before writing, a 200 fully streamed. -/
theorem c7_witness :
    download_file (FetchOutcome.response 500 [[1]] false none) = ⟨false, []⟩ ∧
    (200 ≤ 200 ∧ 200 < 300) ∧ (false : Bool) = false ∧
    (download_file (FetchOutcome.response 200 [[5], [6]] false none)).effects
      = [[5], [6]].map FileEffect.writeChunk :=
  ⟨(c7_download_failure_uniform 500 [[1]] false none).2.2.1 (by decide),
   ((c7_download_failure_uniform 200 [[5], [6]] false none).2.2.2.2.2 (by decide)).1,
   ((c7_download_failure_uniform 200 [[5], [6]] false none).2.2.2.2.2 (by decide)).2.1,
   ((c7_download_failure_uniform 200 [[5], [6]] false none).2.2.2.2.2 (by decide)).2.2⟩

lemma mainTrace_ok {env : Env} {cfg : Config} (machine : String)
    (dl : String → String → Bool) (fsEx : String → Bool)
    (h : makeConfig env = Except.ok cfg) :
    mainTrace env machine dl fsEx = Except.ok
      (BootStep.mkdir cfg.FILE_PATH :: BootStep.startHealth "0.0.0.0" cfg.PORT ::
        ((start_services cfg machine dl fsEx).downloads.map
            (fun f => BootStep.download f.1 f.2) ++
          (start_services cfg machine dl fsEx).chmods.map
            (fun c => BootStep.chmodStep c.1 c.2) ++
          (start_services cfg machine dl fsEx).launches.map
            (fun l => BootStep.launch l.name l.cmd) ++
          [BootStep.idleSleep])) := by
  unfold mainTrace
  rw [h]

/-- C8.  The health listener is started directly after the directory step
and before every download, chmod and launch step of the trace, and even
when the gathered downloads fail the sequencer still ends in the
indefinite idle sleep — the listener is never torn down, there being no
teardown step at all. -/
theorem c8_health_first_and_idle (env : Env) (machine : String)
    (dl : String → String → Bool) (fsEx : String → Bool) (cfg : Config)
    (h : makeConfig env = Except.ok cfg) :
    (∃ rest, mainTrace env machine dl fsEx =
        Except.ok (BootStep.mkdir cfg.FILE_PATH ::
          BootStep.startHealth "0.0.0.0" cfg.PORT :: rest) ∧
      rest.getLast? = some BootStep.idleSleep) ∧
    ((downloadResults cfg machine dl).all (fun b => b) = false →
      mainTrace env machine dl fsEx =
        Except.ok (BootStep.mkdir cfg.FILE_PATH ::
          BootStep.startHealth "0.0.0.0" cfg.PORT ::
          ((filesToDownload cfg machine).map (fun f => BootStep.download f.1 f.2) ++
            [BootStep.idleSleep]))) := by
  have hmt := mainTrace_ok machine dl fsEx h
  constructor
  · exact ⟨_, hmt, List.getLast?_concat _⟩
  · intro hall
    rw [hmt, start_services_gatherFail hall]
    simp

/-- Witness for C8: the default settings with a failing 2go download. -/
theorem c8_witness :
    (∃ rest, mainTrace env0 "x86_64" dlFail2go exAll =
        Except.ok (BootStep.mkdir cfg0.FILE_PATH ::
          BootStep.startHealth "0.0.0.0" cfg0.PORT :: rest) ∧
      rest.getLast? = some BootStep.idleSleep) ∧
    mainTrace env0 "x86_64" dlFail2go exAll =
      Except.ok (BootStep.mkdir cfg0.FILE_PATH ::
        BootStep.startHealth "0.0.0.0" cfg0.PORT ::
        ((filesToDownload cfg0 "x86_64").map (fun f => BootStep.download f.1 f.2) ++
          [BootStep.idleSleep])) :=
  ⟨(c8_health_first_and_idle env0 "x86_64" dlFail2go exAll cfg0 rfl).1,
   (c8_health_first_and_idle env0 "x86_64" dlFail2go exAll cfg0 rfl).2 (by decide)⟩

lemma head?_append_some {α : Type} (l1 l2 : List α) (a : α) (h : l1.head? = some a) :
    (l1 ++ l2).head? = some a := by
  cases l1 with
  | nil => exact absurd h (by simp)
  | cons x xs => simpa using h

lemma endsInAmp_nohup (command : String) : endsInAmp (nohupLine command) = true := by
  unfold endsInAmp nohupLine
  rw [strDataAppend, strDataAppend, List.append_assoc, List.reverse_append,
    List.reverse_append]
  have h1 : (" >/dev/null 2>&1 &" : String).data.reverse.head? = some '&' := by decide
  rw [head?_append_some _ _ _ (head?_append_some _ _ _ h1)]
  rfl

/-- C9.  `run_background_process` spawns the nohup-backgrounded shell line
and waits only for that shell: the backgrounded line completes in zero
ticks whatever the detached command's own duration, and the event trace
contains no wait on the child and no exit-status collection. -/
theorem c9_fire_and_forget (command : String) (duration : String → Nat) :
    run_background_process command =
      [SubprocessEvent.spawnShell (nohupLine command), SubprocessEvent.waitShell] ∧
    (∀ e ∈ run_background_process command,
      (∀ c, e ≠ SubprocessEvent.waitChild c) ∧
      (∀ c, e ≠ SubprocessEvent.collectExit c)) ∧
    endsInAmp (nohupLine command) = true ∧
    shellWaitTicks duration (nohupLine command) = 0 := by
  refine ⟨rfl, ?_, endsInAmp_nohup command, ?_⟩
  · intro e he
    simp only [run_background_process, List.mem_cons, List.not_mem_nil, or_false] at he
    rcases he with h | h <;> subst h
    · exact ⟨fun c hc => SubprocessEvent.noConfusion hc,
        fun c hc => SubprocessEvent.noConfusion hc⟩
    · exact ⟨fun c hc => SubprocessEvent.noConfusion hc,
        fun c hc => SubprocessEvent.noConfusion hc⟩
  · unfold shellWaitTicks
    rw [endsInAmp_nohup command]
    rfl

/-- Witness for C9: a maximal sleep detaches in zero wait ticks. -/
theorem c9_witness :
    run_background_process "sleep 99999" =
      [SubprocessEvent.spawnShell "nohup sleep 99999 >/dev/null 2>&1 &",
       SubprocessEvent.waitShell] ∧
    shellWaitTicks (fun _ => 99999) (nohupLine "sleep 99999") = 0 :=
  ⟨((c9_fire_and_forget "sleep 99999" (fun _ => 99999)).1).trans (by decide),
   (c9_fire_and_forget "sleep 99999" (fun _ => 99999)).2.2.2⟩

lemma makeConfig_paths {env : Env} {cfg : Config} (h : makeConfig env = Except.ok cfg) :
    cfg.NPM_BIN = pathJoin (env.FILE_PATH.getD "./.cache") "npm" ∧
    cfg.PHP_BIN = pathJoin (env.FILE_PATH.getD "./.cache") "php" ∧
    cfg.WEB_BIN = pathJoin (env.FILE_PATH.getD "./.cache") "web" ∧
    cfg.BOT_BIN = pathJoin (env.FILE_PATH.getD "./.cache") "bot" := by
  unfold makeConfig at h
  cases hrp : resolvePort env with
  | error e => rw [hrp] at h; exact absurd h (by simp)
  | ok port =>
    rw [hrp] at h
    simp only [Except.ok.injEq] at h
    exact ⟨by rw [← h], by rw [← h], by rw [← h], by rw [← h]⟩

/-- C10.  Whatever the configuration, no launch issued by `start_services`
runs the npm-path agent binary — even when it was selected and
downloaded — and a launch running the php-path binary is the `php` task
and occurs only when that binary exists on disk at launch time. -/
theorem c10_npm_never_launched (env : Env) (cfg : Config) (machine : String)
    (dl : String → String → Bool) (fsEx : String → Bool)
    (h : makeConfig env = Except.ok cfg) :
    (∀ l ∈ (start_services cfg machine dl fsEx).launches, l.bin ≠ cfg.NPM_BIN) ∧
    (∀ l ∈ (start_services cfg machine dl fsEx).launches,
      l.bin = cfg.PHP_BIN → l.name = "php" ∧ fsEx cfg.PHP_BIN = true) := by
  obtain ⟨hnpm, hphp, hweb, hbot⟩ := makeConfig_paths h
  cases hall : (downloadResults cfg machine dl).all (fun b => b) with
  | false =>
    rw [start_services_gatherFail hall]
    exact ⟨fun l hl => absurd hl (List.not_mem_nil l),
      fun l hl => absurd hl (List.not_mem_nil l)⟩
  | true =>
    rw [start_services_gatherOk hall]
    constructor
    · intro l hl
      rcases mem_launchPlan hl with h1 | ⟨hb, h1⟩ | h1 <;> subst h1
      · show cfg.WEB_BIN ≠ cfg.NPM_BIN
        rw [hweb, hnpm]
        intro he; exact absurd (pathJoinInj he) (by decide)
      · show cfg.PHP_BIN ≠ cfg.NPM_BIN
        rw [hphp, hnpm]
        intro he; exact absurd (pathJoinInj he) (by decide)
      · show cfg.BOT_BIN ≠ cfg.NPM_BIN
        rw [hbot, hnpm]
        intro he; exact absurd (pathJoinInj he) (by decide)
    · intro l hl hbin
      rcases mem_launchPlan hl with h1 | ⟨hb, h1⟩ | h1 <;> subst h1
      · rw [show (⟨"web", cfg.WEB_BIN, cfg.WEB_BIN ++ " -c " ++ cfg.CONFIG_FILE⟩ : Launch).bin
            = cfg.WEB_BIN from rfl, hweb, hphp] at hbin
        exact absurd (pathJoinInj hbin) (by decide)
      · exact ⟨rfl, hb⟩
      · rw [show (⟨"bot", cfg.BOT_BIN,
            cfg.BOT_BIN ++ " tunnel --edge-ip-version auto --no-autoupdate --url http://localhost:"
              ++ toString cfg.PORT⟩ : Launch).bin = cfg.BOT_BIN from rfl, hbot, hphp] at hbin
        exact absurd (pathJoinInj hbin) (by decide)

/-- Witness for C10: with server, key and port all set the npm agent is in
the download set and every download succeeds, yet no launch runs it. -/
theorem c10_witness :
    ((cfgOf envNezhaPort).NPM_BIN, artifactUrl "amd" "agent")
        ∈ filesToDownload (cfgOf envNezhaPort) "x86_64" ∧
    (∀ l ∈ (start_services (cfgOf envNezhaPort) "x86_64" dlAll exAll).launches,
      l.bin ≠ (cfgOf envNezhaPort).NPM_BIN) ∧
    (∀ l ∈ (start_services (cfgOf envNezhaPort) "x86_64" dlAll exAll).launches,
      l.bin = (cfgOf envNezhaPort).PHP_BIN →
        l.name = "php" ∧ exAll (cfgOf envNezhaPort).PHP_BIN = true) :=
  ⟨by decide,
   (c10_npm_never_launched envNezhaPort (cfgOf envNezhaPort) "x86_64" dlAll exAll rfl).1,
   (c10_npm_never_launched envNezhaPort (cfgOf envNezhaPort) "x86_64" dlAll exAll rfl).2⟩

end App
